import Mathlib

/-!
Verification development for the street-lights dashboard repository.

The Python sources under src/dashboard are shallowly embedded:

* db_utils.py   : the data access layer (read accessors over PostGIS and
  Snowflake, the two demo write operations, the st.cache_data result cache).
* app.py        : the Neighborhood Overview metrics computation.
* config.py     : the Snowflake availability configuration.
* map_utils.py  : the folium map composition functions.

Pandas DataFrames are modelled as a list of named columns plus rows of
string cells; the external SQL stores are modelled by an in-memory list of
light rows together with an outcome parameter saying whether the engine or
the query failed.  Randomness (ORDER BY RANDOM) is modelled by an index or
reordering parameter.  Python exceptions are modelled with Except or Option.
-/

/-- Street light status values stored in streetlights.street_lights.status. -/
inductive Status where
  | operational
  | faulty
  | maintenance_required
deriving DecidableEq, Repr

/-- A row of streetlights.street_lights joined with the enriched view
street_lights_enriched.  last_maintenance lives in the base table and is
written by simulate_light_failure; the other fields are the columns read by
get_all_lights. -/
structure Light where
  light_id : String
  longitude : Rat
  latitude : Rat
  status : Status
  neighborhood_name : String
  wattage : Nat
  season : String
  failure_risk_score : Rat
  predicted_failure_date : Option String
  maintenance_urgency : String
  age_months : Nat
  days_since_maintenance : Nat
  last_maintenance : Nat
deriving DecidableEq, Repr

/-- A pandas DataFrame: named columns and rows of cells rendered as strings.
pd.DataFrame() with no arguments is DataFrame.mk [] []. -/
structure DataFrame where
  columns : List String
  rows : List (List String)
deriving DecidableEq, Repr

/-- The string stored in the status column. -/
def statusStr : Status → String
  | Status.operational => "operational"
  | Status.faulty => "faulty"
  | Status.maintenance_required => "maintenance_required"

/-- Column schema of the get_all_lights query (db_utils.py lines 87 to 95). -/
def lightsTableColumns : List String :=
  ["light_id", "longitude", "latitude", "status", "neighborhood_name",
   "wattage", "season", "failure_risk_score", "predicted_failure_date",
   "maintenance_urgency", "age_months", "days_since_maintenance"]

/-- One result row of the get_all_lights query. -/
def lightRow (l : Light) : List String :=
  [l.light_id, toString l.longitude, toString l.latitude, statusStr l.status,
   l.neighborhood_name, toString l.wattage, l.season,
   toString l.failure_risk_score, (l.predicted_failure_date.getD ""),
   l.maintenance_urgency, toString l.age_months,
   toString l.days_since_maintenance]

/-- The result of the get_all_lights SELECT against a live store:
all light rows with the declared columns, ORDER BY light_id. -/
def lightsTable (store : List Light) : DataFrame :=
  DataFrame.mk lightsTableColumns
    ((store.mergeSort (fun a b => decide (a.light_id ≤ b.light_id))).map lightRow)

/-- execute_query (db_utils.py lines 68 to 81): if the cached engine is
unavailable, or pd.read_sql raises, return pd.DataFrame(); the function
never raises to the caller.  The read outcome is a parameter standing for
the external SQL engine. -/
def execute_query (engine : Option Unit) (readSql : Except String DataFrame) :
    DataFrame :=
  match engine with
  | none => DataFrame.mk [] []
  | some _ =>
    match readSql with
    | Except.ok df => df
    | Except.error _ => DataFrame.mk [] []

/-- execute_snowflake_query (db_utils.py lines 404 to 427): same failure
shape against the Snowflake connection. -/
def execute_snowflake_query (conn : Option Unit)
    (runQuery : Except String DataFrame) : DataFrame :=
  match conn with
  | none => DataFrame.mk [] []
  | some _ =>
    match runQuery with
    | Except.ok df => df
    | Except.error _ => DataFrame.mk [] []

/-- The st.cache_data store: accessor key, insertion time, cached frame. -/
abbrev Cache : Type := List (String × Nat × DataFrame)

/-- Cache lookup honouring the per-accessor time to live. -/
def cacheLookup (cache : Cache) (key : String) (now ttl : Nat) :
    Option DataFrame :=
  match List.find? (fun e => e.1 == key) cache with
  | none => none
  | some e => if now < e.2.1 + ttl then some e.2.2 else none

/-- Insert a freshly computed result into the cache. -/
def cacheInsert (cache : Cache) (key : String) (now : Nat) (df : DataFrame) :
    Cache :=
  List.cons (key, now, df) (List.filter (fun e => !(e.1 == key)) cache)

/-- Dashboard process state: the external store contents plus the
process-wide st.cache_data store. -/
structure AppState where
  store : List Light
  cache : Cache

/-- get_all_lights (db_utils.py lines 84 to 96): cached for 60 seconds,
delegates to execute_query.  readOk says whether pd.read_sql succeeds
against the live store. -/
def get_all_lights (engine : Option Unit) (readOk : Bool) (s : AppState)
    (now : Nat) : DataFrame × AppState :=
  match cacheLookup s.cache "get_all_lights" now 60 with
  | some df => (df, s)
  | none =>
    let df := execute_query engine
      (if readOk then Except.ok (lightsTable s.store)
       else Except.error "read_sql failed")
    (df, AppState.mk s.store (cacheInsert s.cache "get_all_lights" now df))

/-- The ids selected by
SELECT light_id FROM street_lights WHERE status = operational. -/
def operationalIds (store : List Light) : List String :=
  (store.filter (fun l => l.status == Status.operational)).map Light.light_id

/-- The row update of simulate_light_failure (db_utils.py lines 319 to 323):
SET status = faulty, last_maintenance = NOW() WHERE light_id = given id. -/
def setLightFaulty (now : Nat) (given : String) (l : Light) : Light :=
  if l.light_id == given then
    { l with status := Status.faulty, last_maintenance := now }
  else l

/-- simulate_light_failure (db_utils.py lines 292 to 334).  With no explicit
id, ORDER BY RANDOM() LIMIT 1 over the operational lights is modelled by
indexing with rand modulo the list length; fetchone returning no row yields
the no-operational-lights failure.  On success the whole st.cache_data
store is cleared.  The database statement itself is assumed to succeed when
a connection exists. -/
def simulate_light_failure (conn : Option Unit) (s : AppState)
    (rand now : Nat) (light_id : Option String) : (Bool × String) × AppState :=
  match conn with
  | none => ((false, "No database connection"), s)
  | some _ =>
    let picked : Option String :=
      match light_id with
      | some given => some given
      | none =>
        let ids := operationalIds s.store
        ids.get? (rand % ids.length)
    match picked with
    | none => ((false, "No operational lights found"), s)
    | some given =>
      ((true, "Light " ++ given ++ " set to faulty"),
       AppState.mk (s.store.map (setLightFaulty now given)) [])

/-- The row update of trigger_scheduled_maintenance (db_utils.py lines 348
to 357): SET status = maintenance_required WHERE light_id IN chosen. -/
def setMaintenanceRequired (chosen : List String) (l : Light) : Light :=
  if chosen.contains l.light_id then
    { l with status := Status.maintenance_required }
  else l

/-- trigger_scheduled_maintenance (db_utils.py lines 337 to 369).  The inner
SELECT ... WHERE status = operational ORDER BY RANDOM() LIMIT count is
modelled by applying the reordering parameter randOrder to the operational
ids and taking count of them; cursor.rowcount is the number of store rows
matched by the outer UPDATE.  On success the whole cache is cleared. -/
def trigger_scheduled_maintenance (conn : Option Unit)
    (randOrder : List String → List String) (s : AppState) (count : Nat) :
    (Bool × String) × AppState :=
  match conn with
  | none => ((false, "No database connection"), s)
  | some _ =>
    let chosen := (randOrder (operationalIds s.store)).take count
    let affected :=
      (s.store.filter (fun l => chosen.contains l.light_id)).length
    ((true, toString affected ++ " lights set to maintenance_required"),
     AppState.mk (s.store.map (setMaintenanceRequired chosen)) [])

/-- len(df[df[col] == v]) : raises KeyError when the column is missing,
otherwise counts the matching rows. -/
def dfCountEq (df : DataFrame) (col v : String) : Except String Nat :=
  match df.columns.findIdx? (fun c => c == col) with
  | none => Except.error ("KeyError: " ++ col)
  | some i =>
    Except.ok ((df.rows.filter (fun r => r.get? i == some v)).length)

/-- The four metric values of the Neighborhood Overview page. -/
structure OverviewMetrics where
  total : Nat
  operational : Nat
  faulty : Nat
  maintenance : Nat
  operationalPct : Rat
  faultyPct : Rat
deriving DecidableEq, Repr

/-- The Neighborhood Overview metrics row (app.py lines 107 to 115):
total = len(lights_df), the three status counts, then the percentage
strings operational*100/total_lights and faulty*100/total_lights.  Integer
division by a zero total raises ZeroDivisionError in Python. -/
def overviewMetrics (lights_df : DataFrame) : Except String OverviewMetrics := do
  let total := lights_df.rows.length
  let operational ← dfCountEq lights_df "status" "operational"
  let faulty ← dfCountEq lights_df "status" "faulty"
  let maintenance ← dfCountEq lights_df "status" "maintenance_required"
  if total == 0 then
    Except.error "ZeroDivisionError"
  else
    Except.ok (OverviewMetrics.mk total operational faulty maintenance
      (((operational : Rat) * 100) / (total : Rat))
      (((faulty : Rat) * 100) / (total : Rat)))

/-- The Snowflake credential configuration visible to config.py: whether the
st.secrets snowflake section is complete, and the SNOWFLAKE_ACCOUNT and
SNOWFLAKE_USER environment variables (empty string is the default). -/
structure SnowflakeEnv where
  secretsComplete : Bool
  account : String
  user : String
deriving DecidableEq, Repr

/-- SNOWFLAKE_ENABLED (config.py lines 45 to 67): true when the secrets
section loads, otherwise true only when both credential variables are
non-empty. -/
def snowflakeEnabled (env : SnowflakeEnv) : Bool :=
  if env.secretsComplete then true
  else !(env.account == "") && !(env.user == "")

/-- get_snowflake_connection (db_utils.py lines 376 to 401).  It is wrapped
in st.cache_resource, so the result (even a failed None) is memoised in
rcache for the process lifetime.  importEnv is the configuration captured
when config.py was imported; connect stands for sf_connector.connect with
the import-time SNOWFLAKE_CONFIG. -/
def get_snowflake_connection (available : Bool) (importEnv : SnowflakeEnv)
    (connect : SnowflakeEnv → Option Unit) (rcache : Option (Option Unit)) :
    Option Unit × Option (Option Unit) :=
  match rcache with
  | some cached => (cached, some cached)
  | none =>
    let conn :=
      if !available then none
      else if !(snowflakeEnabled importEnv) then none
      else connect importEnv
    (conn, some conn)

/-- is_snowflake_available (db_utils.py lines 430 to 432).  callEnv is the
ambient credential configuration at the moment of the call; the Python body
reads only the module-level flags fixed at import time and the resource
cached connection, so callEnv is never consulted. -/
def is_snowflake_available (available : Bool) (importEnv : SnowflakeEnv)
    (connect : SnowflakeEnv → Option Unit) (rcache : Option (Option Unit))
    (callEnv : SnowflakeEnv) : Bool × Option (Option Unit) :=
  let r := get_snowflake_connection available importEnv connect rcache
  (available && snowflakeEnabled importEnv && r.1.isSome, r.2)

/-- A JSON value, the result of json.loads on a boundary string. -/
inductive Json where
  | str (s : String)
  | num (q : Rat)
  | arr (elements : List Json)
  | obj (fields : List (String × Json))

/-- Dictionary access j[key]; None models the KeyError / TypeError raise. -/
def Json.getField : Json → String → Option Json
  | Json.obj fields, key => (fields.find? (fun f => f.1 == key)).map (fun f => f.2)
  | _, _ => none

/-- List index access j[i]; None models the raise. -/
def Json.getIdx : Json → Nat → Option Json
  | Json.arr elements, i => elements.get? i
  | _, _ => none

/-- Numeric coercion of a JSON value. -/
def Json.getNum : Json → Option Rat
  | Json.num q => some q
  | _ => none

/-- A folium layer attached to a map.  markerCluster carries its contained
markers as tooltip and colour pairs; featureGroup carries its children. -/
inductive MapLayer where
  | geoJsonPoly (name : String)
  | markerCluster (markers : List (String × String))
  | circleMarker (tooltip : String) (color : String)
  | marker (name : String)
  | circle (name : String)
  | polyLine (popup : String)
  | divIconMarker (popup : String)
  | featureGroup (name : String) (children : List MapLayer)

/-- A folium map: the ordered list of layers added to it. -/
structure FMap where
  layers : List MapLayer

/-- STATUS_COLORS (config.py lines 85 to 90). -/
def STATUS_COLORS : List (String × String) :=
  [("operational", "#2ecc71"), ("maintenance_required", "#f39c12"),
   ("faulty", "#e74c3c"), ("predicted_failure", "#ff6b6b")]

/-- URGENCY_COLORS (config.py lines 93 to 98). -/
def URGENCY_COLORS : List (String × String) :=
  [("CRITICAL", "#c0392b"), ("HIGH", "#e67e22"),
   ("MEDIUM", "#f39c12"), ("LOW", "#95a5a6")]

/-- dict.get(key, default) over a colour table. -/
def lookupColor (colors : List (String × String)) (key deflt : String) :
    String :=
  ((colors.find? (fun c => c.1 == key)).map (fun c => c.2)).getD deflt

/-- One row of the get_neighborhoods result. -/
structure NeighborhoodRow where
  neighborhood_id : Nat
  name : String
  population : Nat
  boundary_geojson : String
deriving DecidableEq, Repr

/-- One row of the get_suppliers result. -/
structure SupplierRow where
  supplier_id : Nat
  name : String
  longitude : Rat
  latitude : Rat
  service_radius_km : Rat
  avg_response_hours : Rat
  specialization : String
  contact_phone : String
deriving DecidableEq, Repr

/-- One row of the get_neighborhood_supplier_distance result. -/
structure NeighborhoodSupplierRow where
  neighborhood : String
  nearest_supplier : String
  specialization : String
  distance_km : Rat
  lights_in_neighborhood : Nat
deriving DecidableEq, Repr

/-- add_neighborhoods_layer (map_utils.py lines 42 to 72): empty frame is a
no-op; each row whose boundary parses contributes one GeoJson polygon layer;
a row whose json.loads raises is skipped and iteration continues.  parse
stands for json.loads. -/
def add_neighborhoods_layer (parse : String → Option Json) (m : FMap)
    (neighborhoods_df : List NeighborhoodRow) : FMap :=
  if neighborhoods_df.isEmpty then m
  else
    FMap.mk (m.layers ++ neighborhoods_df.filterMap (fun row =>
      (parse row.boundary_geojson).map (fun _ => MapLayer.geoJsonPoly row.name)))

/-- add_lights_layer (map_utils.py lines 75 to 129): empty frame is a no-op;
otherwise every row becomes a CircleMarker inside one MarkerCluster and the
cluster is the single layer added to the map.  The cluster options are a
radius and a zoom cutoff; there is no marker-count threshold.  The
show_status_legend argument is accepted and unused, as in the source. -/
def add_lights_layer (m : FMap) (lights_df : List Light)
    (show_status_legend : Bool) : FMap :=
  if lights_df.isEmpty then m
  else
    let markers := lights_df.map (fun l =>
      (l.light_id ++ " - " ++ statusStr l.status,
       lookupColor STATUS_COLORS (statusStr l.status) "#95a5a6"))
    FMap.mk (m.layers ++ [MapLayer.markerCluster markers])

/-- add_suppliers_layer (map_utils.py lines 132 to 168): empty frame is a
no-op; each supplier adds a Marker plus a service-radius Circle. -/
def add_suppliers_layer (m : FMap) (suppliers_df : List SupplierRow) : FMap :=
  if suppliers_df.isEmpty then m
  else
    FMap.mk (m.layers ++ suppliers_df.flatMap (fun s =>
      [MapLayer.marker s.name, MapLayer.circle s.name]))

/-- add_predicted_failures_layer (map_utils.py lines 171 to 208): empty
frame is a no-op; each row adds one unclustered CircleMarker coloured by
maintenance urgency. -/
def add_predicted_failures_layer (m : FMap) (predictions_df : List Light) :
    FMap :=
  if predictions_df.isEmpty then m
  else
    FMap.mk (m.layers ++ predictions_df.map (fun l =>
      MapLayer.circleMarker (l.light_id ++ " - " ++ l.maintenance_urgency)
        (lookupColor URGENCY_COLORS l.maintenance_urgency "#95a5a6")))

/-- The outer coordinate ring selected in add_neighborhood_supplier_lines:
coordinates[0] for a Polygon, coordinates[0][0] for a MultiPolygon, raise
(None) otherwise. -/
def outerRing (geojson : Json) : Option Json :=
  match geojson.getField "type" with
  | some (Json.str t) =>
    if t == "Polygon" then
      (geojson.getField "coordinates").bind (fun c => c.getIdx 0)
    else if t == "MultiPolygon" then
      (geojson.getField "coordinates").bind (fun c =>
        (c.getIdx 0).bind (fun d => d.getIdx 0))
    else none
  | _ => none

/-- The centroid computed as the coordinate averages; any malformed
coordinate pair or an empty ring raises (None). -/
def ringCentroid (ring : Json) : Option (Rat × Rat) :=
  match ring with
  | Json.arr coords =>
    match coords.mapM (fun c => (c.getIdx 1).bind Json.getNum),
          coords.mapM (fun c => (c.getIdx 0).bind Json.getNum) with
    | some lats, some lons =>
      if lats.length == 0 then none
      else some (lats.sum / (lats.length : Rat), lons.sum / (lons.length : Rat))
    | _, _ => none
  | _ => none

/-- The two connection layers one neighborhood-supplier row contributes to
the Supplier Connections feature group; a missing neighborhood, a failed
boundary parse or centroid, or a missing supplier skips the row. -/
def supplierLineLayers (parse : String → Option Json)
    (neighborhoods_df : List NeighborhoodRow)
    (suppliers_df : List SupplierRow) (row : NeighborhoodSupplierRow) :
    List MapLayer :=
  match neighborhoods_df.find? (fun n => n.name == row.neighborhood) with
  | none => []
  | some nh =>
    match (parse nh.boundary_geojson).bind (fun g =>
        (outerRing g).bind ringCentroid) with
    | none => []
    | some _center =>
      match suppliers_df.find? (fun s => s.name == row.nearest_supplier) with
      | none => []
      | some _sup =>
        [MapLayer.polyLine (row.neighborhood ++ " to " ++ row.nearest_supplier
           ++ ": " ++ toString row.distance_km ++ " km"),
         MapLayer.divIconMarker (row.neighborhood ++ " and "
           ++ row.nearest_supplier)]

/-- add_neighborhood_supplier_lines (map_utils.py lines 278 to 359): a no-op
when any of the three frames is empty; otherwise the rows build one
Supplier Connections feature group added as a single layer. -/
def add_neighborhood_supplier_lines (parse : String → Option Json) (m : FMap)
    (neighborhood_supplier_df : List NeighborhoodSupplierRow)
    (neighborhoods_df : List NeighborhoodRow)
    (suppliers_df : List SupplierRow) : FMap :=
  if neighborhood_supplier_df.isEmpty || neighborhoods_df.isEmpty
      || suppliers_df.isEmpty then m
  else
    FMap.mk (m.layers ++ [MapLayer.featureGroup "Supplier Connections"
      (neighborhood_supplier_df.flatMap
        (supplierLineLayers parse neighborhoods_df suppliers_df))])

/-- Whether a layer is a MarkerCluster. -/
def isClusterLayer : MapLayer → Bool
  | MapLayer.markerCluster _ => true
  | _ => false

/-- The number of MarkerCluster layers on a map. -/
def clusterLayerCount (m : FMap) : Nat := m.layers.countP isClusterLayer

/-- All light fields except status and last_maintenance agree between the
old row a and the new row b. -/
def sameButStatusMaint (a b : Light) : Prop :=
  b.light_id = a.light_id ∧ b.longitude = a.longitude
  ∧ b.latitude = a.latitude ∧ b.neighborhood_name = a.neighborhood_name
  ∧ b.wattage = a.wattage ∧ b.season = a.season
  ∧ b.failure_risk_score = a.failure_risk_score
  ∧ b.predicted_failure_date = a.predicted_failure_date
  ∧ b.maintenance_urgency = a.maintenance_urgency
  ∧ b.age_months = a.age_months
  ∧ b.days_since_maintenance = a.days_since_maintenance

/-- All light fields except status agree between the old row a and the new
row b. -/
def sameButStatus (a b : Light) : Prop :=
  sameButStatusMaint a b ∧ b.last_maintenance = a.last_maintenance

/-! ## Concrete fixtures used by witnesses and counterexamples -/

/-- A concrete operational light. -/
def demoOpLight : Light :=
  { light_id := "SL-001", longitude := 77, latitude := 12,
    status := Status.operational, neighborhood_name := "Indiranagar",
    wattage := 150, season := "summer", failure_risk_score := 1,
    predicted_failure_date := none, maintenance_urgency := "LOW",
    age_months := 24, days_since_maintenance := 30, last_maintenance := 10 }

/-- A concrete faulty light. -/
def demoFaultyLight : Light :=
  { demoOpLight with light_id := "SL-002", status := Status.faulty }

/-- A concrete light already flagged for maintenance. -/
def demoMaintLight : Light :=
  { demoOpLight with light_id := "SL-003", status := Status.maintenance_required }

/-- A second concrete operational light. -/
def demoOpLight2 : Light :=
  { demoOpLight with light_id := "SL-004" }

/-- The import-time Snowflake configuration with no credentials. -/
def importEnvDemo : SnowflakeEnv := SnowflakeEnv.mk false "" ""

/-- A mid-session Snowflake configuration with credentials filled in. -/
def callEnvDemo : SnowflakeEnv := SnowflakeEnv.mk false "demo-account" "demo-user"

/-! ## General helper lemmas -/

theorem zip_self_map {α : Type} (g : α → α) (l : List α) :
    l.zip (l.map g) = l.map (fun a => (a, g a)) := by
  induction l with
  | nil => rfl
  | cons a t ih => simp [ih]

theorem length_filterMap_add {α β : Type} (f : α → Option β) (l : List α) :
    (l.filterMap f).length + (l.filter (fun a => (f a).isNone)).length
      = l.length := by
  induction l with
  | nil => rfl
  | cons a t ih =>
    cases h : f a <;> simp [List.filterMap_cons, List.filter_cons, h] <;> omega

theorem dfCountEq_lightsTable (store : List Light) (v : String) :
    dfCountEq (lightsTable store) "status" v
      = Except.ok (store.countP (fun l => statusStr l.status == v)) := by
  have hidx : lightsTableColumns.findIdx? (fun c => c == "status") = some 3 := rfl
  unfold dfCountEq lightsTable
  simp only [hidx]
  rw [List.filter_map]
  rw [List.length_map]
  have hpred : (fun r : List String => r.get? 3 == some v) ∘ lightRow
      = (fun l : Light => statusStr l.status == v) := funext (fun l => rfl)
  rw [hpred]
  rw [← List.countP_eq_length_filter]
  exact congrArg Except.ok ((List.mergeSort_perm store _).countP_eq _)

/-! ## Claim theorems -/

/-- C1: when get_all_lights returns its schema-conformant table with zero
rows, the Neighborhood Overview metrics computation raises ZeroDivisionError
at the percentage metric instead of completing; evaluating the embedded
metrics computation at the failing input exhibits the crash. -/
theorem C1_overview_crashes_on_empty_lights :
    overviewMetrics (lightsTable []) = Except.error "ZeroDivisionError" := by
  have h : lightsTable [] = DataFrame.mk lightsTableColumns [] := by
    unfold lightsTable
    rw [List.mergeSort_nil]
    rfl
  rw [h]
  rfl

/-- C2 (counterexample): with the engine unavailable, get_all_lights
returns a frame with no columns at all, while the success frame carries the
twelve declared columns, so the failure result does not have the same named
columns as on success. -/
theorem C2_counterexample :
    (get_all_lights none true (AppState.mk [demoOpLight] []) 0).1.columns = []
    ∧ (get_all_lights (some ()) true (AppState.mk [demoOpLight] []) 0).1.columns
        = lightsTableColumns
    ∧ lightsTableColumns ≠ [] :=
  ⟨rfl, rfl, by decide⟩

/-- C2 (amended): when the underlying store call fails, either because the
engine or connection is unavailable or because the query raises, both
execute_query and execute_snowflake_query return the bare empty frame
pd.DataFrame() with zero rows and zero columns, not the declared success
schema, and never raise to the page controller. -/
theorem C2_failure_returns_bare_empty_frame
    (readSql : Except String DataFrame) (msg : String) :
    execute_query none readSql = DataFrame.mk [] []
    ∧ execute_query (some ()) (Except.error msg) = DataFrame.mk [] []
    ∧ execute_snowflake_query none readSql = DataFrame.mk [] []
    ∧ execute_snowflake_query (some ()) (Except.error msg) = DataFrame.mk [] [] :=
  ⟨rfl, rfl, rfl, rfl⟩

/-- C7: every add-layer map composition function is the identity on the map
when its input table is empty, and add_neighborhood_supplier_lines is the
identity when any one of its three input tables is empty. -/
theorem C7_add_layer_empty_noop (parse : String → Option Json) (m : FMap)
    (b : Bool) (nsd : List NeighborhoodSupplierRow)
    (ndf : List NeighborhoodRow) (sdf : List SupplierRow) :
    add_neighborhoods_layer parse m [] = m
    ∧ add_lights_layer m [] b = m
    ∧ add_suppliers_layer m [] = m
    ∧ add_predicted_failures_layer m [] = m
    ∧ add_neighborhood_supplier_lines parse m [] ndf sdf = m
    ∧ add_neighborhood_supplier_lines parse m nsd [] sdf = m
    ∧ add_neighborhood_supplier_lines parse m nsd ndf [] = m := by
  refine ⟨rfl, rfl, rfl, rfl, rfl, ?_, ?_⟩ <;>
    simp [add_neighborhood_supplier_lines]

/-- C8 (counterexample): a single marker is already placed in a cluster by
add_lights_layer, while add_predicted_failures_layer never clusters even
one marker, so cluster use is not governed by a marker-count threshold. -/
theorem C8_counterexample :
    clusterLayerCount (add_lights_layer (FMap.mk []) [demoOpLight] true) = 1
    ∧ clusterLayerCount
        (add_predicted_failures_layer (FMap.mk []) [demoOpLight]) = 0 :=
  ⟨rfl, rfl⟩

/-- C8 (amended): add_lights_layer puts its markers in one MarkerCluster
for every non-empty table regardless of the marker count (the cluster is
relaxed only by zoom level, not count), and add_predicted_failures_layer
never adds a cluster. -/
theorem C8_amended_always_cluster (m : FMap) (lights preds : List Light)
    (b : Bool) (hne : lights ≠ []) :
    clusterLayerCount (add_lights_layer m lights b) = clusterLayerCount m + 1
    ∧ clusterLayerCount (add_predicted_failures_layer m preds)
        = clusterLayerCount m := by
  constructor
  · have h : lights.isEmpty = false := by
      cases lights with
      | nil => exact absurd rfl hne
      | cons a t => rfl
    simp [add_lights_layer, h, clusterLayerCount, isClusterLayer]
  · cases preds with
    | nil => rfl
    | cons p t =>
      have h : (add_predicted_failures_layer m (p :: t)).layers
          = m.layers ++ (p :: t).map (fun l =>
              MapLayer.circleMarker (l.light_id ++ " - " ++ l.maintenance_urgency)
                (lookupColor URGENCY_COLORS l.maintenance_urgency "#95a5a6")) := rfl
      have h0 : ((p :: t).map (fun l : Light =>
          MapLayer.circleMarker (l.light_id ++ " - " ++ l.maintenance_urgency)
            (lookupColor URGENCY_COLORS l.maintenance_urgency "#95a5a6"))).countP
            isClusterLayer = 0 := by
        rw [List.countP_eq_zero]
        intro a ha
        rcases List.mem_map.mp ha with ⟨l, -, rfl⟩
        simp [isClusterLayer]
      simp only [clusterLayerCount, h, List.countP_append, h0, Nat.add_zero]

/-- Witness for C8 (amended) at a concrete one-marker map. -/
theorem C8_amended_always_cluster_witness :
    [demoOpLight] ≠ ([] : List Light)
    ∧ (clusterLayerCount (add_lights_layer (FMap.mk []) [demoOpLight] true)
         = clusterLayerCount (FMap.mk []) + 1
       ∧ clusterLayerCount
           (add_predicted_failures_layer (FMap.mk []) [demoFaultyLight])
         = clusterLayerCount (FMap.mk [])) :=
  ⟨by decide,
   C8_amended_always_cluster (FMap.mk []) [demoOpLight] [demoFaultyLight]
     true (by decide)⟩

/-- C9 (counterexample): although the configuration in effect at call time
has full credentials (so an availability answer reflecting call-time
configuration would be true given a working connector), is_snowflake_available
answers false because SNOWFLAKE_ENABLED was fixed from the credential-less
import-time configuration. -/
theorem C9_counterexample :
    snowflakeEnabled callEnvDemo = true
    ∧ (is_snowflake_available true importEnvDemo (fun _ => some ()) none
        callEnvDemo).1 = false :=
  ⟨rfl, rfl⟩

/-- C9 (amended): each call to is_snowflake_available re-evaluates the
conjunction, but only over the flags captured at module import and the
resource-cached connection: the answer is independent of the configuration
in effect at call time, and once the connection attempt is cached the
answer is determined by the import-time flags and that cached handle. -/
theorem C9_amended_import_time_only (available : Bool)
    (importEnv e1 e2 : SnowflakeEnv) (connect : SnowflakeEnv → Option Unit)
    (rcache : Option (Option Unit)) (cached : Option Unit) :
    (is_snowflake_available available importEnv connect rcache e1).1
      = (is_snowflake_available available importEnv connect rcache e2).1
    ∧ (is_snowflake_available available importEnv connect (some cached) e1).1
      = (available && snowflakeEnabled importEnv && cached.isSome) :=
  ⟨rfl, rfl⟩

/-! ## Helper lemmas about the write operations -/

theorem statusStr_beq_faulty (st : Status) :
    (statusStr st == "faulty") = (st == Status.faulty) := by
  cases st <;> rfl

theorem setLightFaulty_ne (now : Nat) (given : String) (x : Light)
    (h : ¬ x.light_id = given) : setLightFaulty now given x = x := by
  simp [setLightFaulty, h]

theorem setLightFaulty_self (now : Nat) (l : Light) :
    setLightFaulty now l.light_id l
      = { l with status := Status.faulty, last_maintenance := now } := by
  simp [setLightFaulty]

theorem store_split_unique (store : List Light)
    (hn : (store.map Light.light_id).Nodup) {l0 : Light} (hl0 : l0 ∈ store) :
    ∃ s t, store = s ++ l0 :: t
      ∧ (∀ x ∈ s, ¬ x.light_id = l0.light_id)
      ∧ (∀ x ∈ t, ¬ x.light_id = l0.light_id) := by
  rcases List.append_of_mem hl0 with ⟨s, t, rfl⟩
  rw [List.map_append, List.map_cons] at hn
  refine ⟨s, t, rfl, ?_, ?_⟩
  · intro x hx heq
    have hdisj := List.disjoint_of_nodup_append hn
    exact hdisj (List.mem_map_of_mem Light.light_id hx)
      (by rw [← heq]; exact List.mem_cons_self _ _)
  · intro x hx heq
    have h2 := (List.nodup_append.mp hn).2.1
    have h3 := (List.nodup_cons.mp h2).1
    exact h3 (by rw [← heq]; exact List.mem_map_of_mem Light.light_id hx)

theorem map_fixed_on (g : Light → Light) :
    ∀ (u : List Light), (∀ x ∈ u, g x = x) → u.map g = u := by
  intro u hu
  induction u with
  | nil => rfl
  | cons a v ih =>
    rw [List.map_cons, hu a (List.mem_cons_self a v),
      ih (fun x hx => hu x (List.mem_cons_of_mem a hx))]

theorem countP_faulty_after_set (store : List Light) (now : Nat) (l0 : Light)
    (hn : (store.map Light.light_id).Nodup) (hl0 : l0 ∈ store)
    (hop : l0.status = Status.operational) :
    (store.map (setLightFaulty now l0.light_id)).countP
        (fun l => l.status == Status.faulty)
      = store.countP (fun l => l.status == Status.faulty) + 1 := by
  rcases store_split_unique store hn hl0 with ⟨s, t, hst, hs, ht⟩
  subst hst
  rw [List.map_append, List.map_cons]
  rw [map_fixed_on _ s (fun x hx => setLightFaulty_ne now _ x (hs x hx))]
  rw [map_fixed_on _ t (fun x hx => setLightFaulty_ne now _ x (ht x hx))]
  rw [setLightFaulty_self]
  rw [List.countP_append, List.countP_append, List.countP_cons, List.countP_cons]
  have h1 : (({ l0 with status := Status.faulty, last_maintenance := now } : Light).status
      == Status.faulty) = true := rfl
  have h2 : (l0.status == Status.faulty) = false := by rw [hop]; rfl
  rw [h1, h2]
  simp
  omega

theorem filter_changed_eq (g : Light → Light) (s t : List Light) (l0 : Light)
    (hs : ∀ x ∈ s, g x = x) (ht : ∀ x ∈ t, g x = x) (hl : ¬ g l0 = l0) :
    ((s ++ l0 :: t).zip ((s ++ l0 :: t).map g)).filter
        (fun p => decide (¬ p.1 = p.2)) = [(l0, g l0)] := by
  rw [zip_self_map, List.filter_map, List.filter_append, List.filter_cons]
  have h1 : List.filter ((fun p : Light × Light => decide (¬ p.1 = p.2)) ∘
      fun a => (a, g a)) s = [] :=
    List.filter_eq_nil_iff.mpr (fun a ha => by simp [hs a ha])
  have h2 : List.filter ((fun p : Light × Light => decide (¬ p.1 = p.2)) ∘
      fun a => (a, g a)) t = [] :=
    List.filter_eq_nil_iff.mpr (fun a ha => by simp [ht a ha])
  have h3 : ((fun p : Light × Light => decide (¬ p.1 = p.2)) ∘
      fun a => (a, g a)) l0 = true := by
    simp only [Function.comp_apply, decide_eq_true_eq]
    exact fun h => hl h.symm
  rw [h1, h2, h3]
  simp

theorem length_filter_mem_of_nodup (ids chosen : List String)
    (hids : ids.Nodup) (hch : chosen.Nodup)
    (hsub : ∀ x ∈ chosen, x ∈ ids) :
    (ids.filter (fun x => chosen.contains x)).length = chosen.length := by
  have hnd : (ids.filter (fun x => chosen.contains x)).Nodup := hids.filter _
  have hset : (ids.filter (fun x => chosen.contains x)).toFinset
      = chosen.toFinset := by
    ext x
    simp only [List.mem_toFinset, List.mem_filter, List.contains_eq_any_beq,
      List.any_eq_true, beq_iff_eq]
    constructor
    · rintro ⟨hxi, y, hy, rfl⟩
      exact hy
    · intro hx
      exact ⟨hsub x hx, x, hx, rfl⟩
  calc (ids.filter (fun x => chosen.contains x)).length
      = (ids.filter (fun x => chosen.contains x)).toFinset.card :=
        (List.toFinset_card_of_nodup hnd).symm
    _ = chosen.toFinset.card := by rw [hset]
    _ = chosen.length := List.toFinset_card_of_nodup hch

theorem changed_pairs_single (store : List Light) (now : Nat) (l0 : Light)
    (hn : (store.map Light.light_id).Nodup) (hl0 : l0 ∈ store)
    (hop : l0.status = Status.operational) :
    ((store.zip (store.map (setLightFaulty now l0.light_id))).filter
        (fun p => decide (¬ p.1 = p.2)))
      = [(l0, { l0 with status := Status.faulty, last_maintenance := now })] := by
  rcases store_split_unique store hn hl0 with ⟨s, t, hst, hs, ht⟩
  subst hst
  have hne : ¬ setLightFaulty now l0.light_id l0 = l0 := by
    rw [setLightFaulty_self]
    intro h
    have h2 := congrArg Light.status h
    have h3 : Status.faulty = Status.operational := by rw [hop] at h2; exact h2
    exact absurd h3 (by decide)
  have h := filter_changed_eq (setLightFaulty now l0.light_id) s t l0
    (fun x hx => setLightFaulty_ne now _ x (hs x hx))
    (fun x hx => setLightFaulty_ne now _ x (ht x hx)) hne
  rw [h, setLightFaulty_self]

theorem sameButStatusMaint_self (a : Light) : sameButStatusMaint a a := by
  unfold sameButStatusMaint
  exact ⟨rfl, rfl, rfl, rfl, rfl, rfl, rfl, rfl, rfl, rfl, rfl⟩

theorem sameButStatus_self (a : Light) : sameButStatus a a := by
  unfold sameButStatus
  exact ⟨sameButStatusMaint_self a, rfl⟩

theorem setLightFaulty_frame (now : Nat) (given : String) (a : Light) :
    sameButStatusMaint a (setLightFaulty now given a) := by
  unfold setLightFaulty
  split
  · unfold sameButStatusMaint
    exact ⟨rfl, rfl, rfl, rfl, rfl, rfl, rfl, rfl, rfl, rfl, rfl⟩
  · exact sameButStatusMaint_self a

theorem setMaintenanceRequired_frame (chosen : List String) (a : Light) :
    sameButStatus a (setMaintenanceRequired chosen a) := by
  unfold setMaintenanceRequired
  split
  · unfold sameButStatus sameButStatusMaint
    exact ⟨⟨rfl, rfl, rfl, rfl, rfl, rfl, rfl, rfl, rfl, rfl, rfl⟩, rfl⟩
  · exact sameButStatus_self a

theorem simulate_store_shape (conn : Option Unit) (s : AppState)
    (rand now : Nat) (lid : Option String) :
    (simulate_light_failure conn s rand now lid).2.store = s.store
    ∨ ∃ given, (simulate_light_failure conn s rand now lid).2.store
        = s.store.map (setLightFaulty now given) := by
  unfold simulate_light_failure
  cases conn with
  | none => exact Or.inl rfl
  | some u =>
    cases lid with
    | some given => exact Or.inr ⟨given, rfl⟩
    | none =>
      cases hg : (operationalIds s.store).get?
          (rand % (operationalIds s.store).length) with
      | none =>
        simp only [hg]
        exact Or.inl trivial
      | some given =>
        simp only [hg]
        exact Or.inr ⟨given, rfl⟩

theorem trigger_store_shape (conn : Option Unit)
    (randOrder : List String → List String) (s : AppState) (count : Nat) :
    (trigger_scheduled_maintenance conn randOrder s count).2.store = s.store
    ∨ ∃ chosen, (trigger_scheduled_maintenance conn randOrder s count).2.store
        = s.store.map (setMaintenanceRequired chosen) := by
  cases conn with
  | none => exact Or.inl rfl
  | some u => exact Or.inr ⟨_, rfl⟩

/-- C3: a successful simulate_light_failure with no explicit id, on a store
with at least one operational light, reports success, clears the whole data
cache, and the next get_all_lights call re-reads the live store: its faulty
count is exactly one more than the pre-write faulty count, and exactly one
row changed, a previously operational one that is now faulty. -/
theorem C3_simulate_failure_bumps_faulty (store : List Light) (cache : Cache)
    (rand now now2 : Nat) (hn : (store.map Light.light_id).Nodup)
    (hop : 0 < (operationalIds store).length) :
    (simulate_light_failure (some ()) (AppState.mk store cache) rand now none).1.1 = true
    ∧ (simulate_light_failure (some ()) (AppState.mk store cache) rand now none).2.cache = []
    ∧ dfCountEq (get_all_lights (some ()) true (AppState.mk store []) now).1
        "status" "faulty"
        = Except.ok (store.countP (fun l => l.status == Status.faulty))
    ∧ dfCountEq (get_all_lights (some ()) true
          (simulate_light_failure (some ()) (AppState.mk store cache) rand now none).2 now2).1
        "status" "faulty"
        = Except.ok (store.countP (fun l => l.status == Status.faulty) + 1)
    ∧ ((store.zip (simulate_light_failure (some ())
          (AppState.mk store cache) rand now none).2.store).filter
          (fun p => decide (¬ p.1 = p.2))).length = 1
    ∧ ∀ p ∈ (store.zip (simulate_light_failure (some ())
          (AppState.mk store cache) rand now none).2.store).filter
          (fun p => decide (¬ p.1 = p.2)),
        p.1.status = Status.operational ∧ p.2.status = Status.faulty := by
  have hlt : rand % (operationalIds store).length
      < (operationalIds store).length := Nat.mod_lt _ hop
  obtain ⟨i0, hget⟩ : ∃ x, (operationalIds store).get?
      (rand % (operationalIds store).length) = some x :=
    ⟨_, List.get?_eq_get hlt⟩
  have hmem : i0 ∈ operationalIds store := List.get?_mem hget
  rcases List.mem_map.mp hmem with ⟨l0, hl0f, hl0id⟩
  have hl0 : l0 ∈ store := (List.mem_filter.mp hl0f).1
  have hl0op : l0.status = Status.operational := by
    have h := (List.mem_filter.mp hl0f).2
    simpa using h
  subst hl0id
  have hsim : simulate_light_failure (some ()) (AppState.mk store cache)
        rand now none
      = ((true, "Light " ++ l0.light_id ++ " set to faulty"),
         AppState.mk (store.map (setLightFaulty now l0.light_id)) []) := by
    unfold simulate_light_failure
    simp only [hget]
  have hcc0 : List.countP (fun l : Light => statusStr l.status == "faulty") store
      = List.countP (fun l : Light => l.status == Status.faulty) store :=
    List.countP_congr (fun x _ => by rw [statusStr_beq_faulty])
  have hcc1 : List.countP (fun l : Light => statusStr l.status == "faulty")
        (store.map (setLightFaulty now l0.light_id))
      = List.countP (fun l : Light => l.status == Status.faulty)
        (store.map (setLightFaulty now l0.light_id)) :=
    List.countP_congr (fun x _ => by rw [statusStr_beq_faulty])
  refine ⟨by rw [hsim], by rw [hsim], ?_, ?_, ?_, ?_⟩
  · rw [show (get_all_lights (some ()) true (AppState.mk store []) now).1
        = lightsTable store from rfl]
    rw [dfCountEq_lightsTable, hcc0]
  · rw [hsim]
    rw [show (get_all_lights (some ()) true
        (AppState.mk (store.map (setLightFaulty now l0.light_id)) []) now2).1
        = lightsTable (store.map (setLightFaulty now l0.light_id)) from rfl]
    rw [dfCountEq_lightsTable, hcc1]
    rw [countP_faulty_after_set store now l0 hn hl0 hl0op]
  · rw [hsim]
    rw [show (((true, "Light " ++ l0.light_id ++ " set to faulty"),
        AppState.mk (store.map (setLightFaulty now l0.light_id)) []) :
          (Bool × String) × AppState).2.store
        = store.map (setLightFaulty now l0.light_id) from rfl]
    rw [changed_pairs_single store now l0 hn hl0 hl0op]
    rfl
  · rw [hsim]
    rw [show (((true, "Light " ++ l0.light_id ++ " set to faulty"),
        AppState.mk (store.map (setLightFaulty now l0.light_id)) []) :
          (Bool × String) × AppState).2.store
        = store.map (setLightFaulty now l0.light_id) from rfl]
    rw [changed_pairs_single store now l0 hn hl0 hl0op]
    intro p hp
    rw [List.mem_singleton] at hp
    subst hp
    exact ⟨hl0op, rfl⟩

/-- Witness for C3 on a two-light store with one operational light. -/
theorem C3_simulate_failure_bumps_faulty_witness :
    (([demoFaultyLight, demoOpLight].map Light.light_id).Nodup
      ∧ 0 < (operationalIds [demoFaultyLight, demoOpLight]).length)
    ∧ ((simulate_light_failure (some ())
          (AppState.mk [demoFaultyLight, demoOpLight] []) 0 5 none).1.1 = true
      ∧ (simulate_light_failure (some ())
          (AppState.mk [demoFaultyLight, demoOpLight] []) 0 5 none).2.cache = []
      ∧ dfCountEq (get_all_lights (some ()) true
            (AppState.mk [demoFaultyLight, demoOpLight] []) 5).1
          "status" "faulty"
          = Except.ok ([demoFaultyLight, demoOpLight].countP
              (fun l => l.status == Status.faulty))
      ∧ dfCountEq (get_all_lights (some ()) true
            (simulate_light_failure (some ())
              (AppState.mk [demoFaultyLight, demoOpLight] []) 0 5 none).2 6).1
          "status" "faulty"
          = Except.ok ([demoFaultyLight, demoOpLight].countP
              (fun l => l.status == Status.faulty) + 1)
      ∧ (([demoFaultyLight, demoOpLight].zip (simulate_light_failure (some ())
            (AppState.mk [demoFaultyLight, demoOpLight] []) 0 5 none).2.store).filter
            (fun p => decide (¬ p.1 = p.2))).length = 1
      ∧ ∀ p ∈ ([demoFaultyLight, demoOpLight].zip (simulate_light_failure (some ())
            (AppState.mk [demoFaultyLight, demoOpLight] []) 0 5 none).2.store).filter
            (fun p => decide (¬ p.1 = p.2)),
          p.1.status = Status.operational ∧ p.2.status = Status.faulty) :=
  ⟨⟨by decide, by decide⟩,
   C3_simulate_failure_bumps_faulty [demoFaultyLight, demoOpLight] [] 0 5 6
     (by decide) (by decide)⟩

/-- C5 (counterexample): simulate_light_failure also rewrites the
last-maintenance timestamp: on a one-light store the timestamp changes from
10 to the write time 99, so the demo writes do not leave every field other
than status unchanged. -/
theorem C5_counterexample :
    ((simulate_light_failure (some ()) (AppState.mk [demoOpLight] []) 0 99
        none).2.store.map (fun l => l.last_maintenance)) = [99]
    ∧ demoOpLight.last_maintenance = 10 :=
  ⟨by decide, by decide⟩

/-- C5 (amended): the demo writes create and delete no rows, and modify
only status and, for simulate_light_failure, last_maintenance: the row at
every position keeps all its other fields. -/
theorem C5_amended_frame (conn : Option Unit) (s : AppState)
    (rand now count : Nat) (lid : Option String)
    (randOrder : List String → List String) (i : Nat) (a b c : Light)
    (ha : s.store.get? i = some a)
    (hb : (simulate_light_failure conn s rand now lid).2.store.get? i = some b)
    (hc : (trigger_scheduled_maintenance conn randOrder s count).2.store.get? i
        = some c) :
    sameButStatusMaint a b ∧ sameButStatus a c
    ∧ (simulate_light_failure conn s rand now lid).2.store.length
        = s.store.length
    ∧ (trigger_scheduled_maintenance conn randOrder s count).2.store.length
        = s.store.length := by
  have hsim : sameButStatusMaint a b
      ∧ (simulate_light_failure conn s rand now lid).2.store.length
        = s.store.length := by
    rcases simulate_store_shape conn s rand now lid with hsh | ⟨given, hsh⟩
    · rw [hsh, ha] at hb
      injection hb with hb2
      subst hb2
      exact ⟨sameButStatusMaint_self a, by rw [hsh]⟩
    · rw [hsh, List.get?_map, ha, Option.map_some'] at hb
      injection hb with hb2
      subst hb2
      exact ⟨setLightFaulty_frame now given a, by rw [hsh, List.length_map]⟩
  have htri : sameButStatus a c
      ∧ (trigger_scheduled_maintenance conn randOrder s count).2.store.length
        = s.store.length := by
    rcases trigger_store_shape conn randOrder s count with hsh | ⟨chosen, hsh⟩
    · rw [hsh, ha] at hc
      injection hc with hc2
      subst hc2
      exact ⟨sameButStatus_self a, by rw [hsh]⟩
    · rw [hsh, List.get?_map, ha, Option.map_some'] at hc
      injection hc with hc2
      subst hc2
      exact ⟨setMaintenanceRequired_frame chosen a, by rw [hsh, List.length_map]⟩
  exact ⟨hsim.1, htri.1, hsim.2, htri.2⟩

/-- Witness for C5 (amended) on a one-light store at position zero. -/
theorem C5_amended_frame_witness :
    ((AppState.mk [demoOpLight] []).store.get? 0 = some demoOpLight
      ∧ (simulate_light_failure (some ()) (AppState.mk [demoOpLight] []) 0 99
          none).2.store.get? 0
        = some { demoOpLight with status := Status.faulty, last_maintenance := 99 }
      ∧ (trigger_scheduled_maintenance (some ()) (fun l => l)
          (AppState.mk [demoOpLight] []) 1).2.store.get? 0
        = some { demoOpLight with status := Status.maintenance_required })
    ∧ (sameButStatusMaint demoOpLight
        { demoOpLight with status := Status.faulty, last_maintenance := 99 }
      ∧ sameButStatus demoOpLight
        { demoOpLight with status := Status.maintenance_required }
      ∧ (simulate_light_failure (some ()) (AppState.mk [demoOpLight] []) 0 99
          none).2.store.length = (AppState.mk [demoOpLight] []).store.length
      ∧ (trigger_scheduled_maintenance (some ()) (fun l => l)
          (AppState.mk [demoOpLight] []) 1).2.store.length
        = (AppState.mk [demoOpLight] []).store.length) :=
  ⟨⟨by decide, by decide, by decide⟩,
   C5_amended_frame (some ()) (AppState.mk [demoOpLight] []) 0 99 1 none
     (fun l => l) 0 demoOpLight
     { demoOpLight with status := Status.faulty, last_maintenance := 99 }
     { demoOpLight with status := Status.maintenance_required }
     (by decide) (by decide) (by decide)⟩

/-- C10: with an explicit light id, simulate_light_failure skips the
operational-status check entirely: it reports success, clears the cache,
and every row carrying that id is set to faulty with its last_maintenance
reset, whatever its previous status. -/
theorem C10_explicit_id_skips_check (store : List Light) (cache : Cache)
    (rand now : Nat) (given : String) (l : Light) (hl : l ∈ store)
    (hid : l.light_id = given) :
    (simulate_light_failure (some ()) (AppState.mk store cache) rand now
        (some given)).1
      = (true, "Light " ++ given ++ " set to faulty")
    ∧ (simulate_light_failure (some ()) (AppState.mk store cache) rand now
        (some given)).2.store
      = store.map (setLightFaulty now given)
    ∧ (simulate_light_failure (some ()) (AppState.mk store cache) rand now
        (some given)).2.cache = []
    ∧ { l with status := Status.faulty, last_maintenance := now }
        ∈ (simulate_light_failure (some ()) (AppState.mk store cache) rand now
            (some given)).2.store := by
  refine ⟨rfl, rfl, rfl, ?_⟩
  have hupd : setLightFaulty now given l
      = { l with status := Status.faulty, last_maintenance := now } := by
    subst hid
    exact setLightFaulty_self now l
  have hmem : setLightFaulty now given l ∈ store.map (setLightFaulty now given) :=
    List.mem_map_of_mem _ hl
  rw [hupd] at hmem
  exact hmem

/-- Witness for C10 at a light that already requires maintenance. -/
theorem C10_explicit_id_skips_check_witness :
    (demoMaintLight ∈ [demoMaintLight]
      ∧ demoMaintLight.light_id = "SL-003")
    ∧ ((simulate_light_failure (some ()) (AppState.mk [demoMaintLight] []) 0 7
          (some "SL-003")).1
        = (true, "Light " ++ "SL-003" ++ " set to faulty")
      ∧ (simulate_light_failure (some ()) (AppState.mk [demoMaintLight] []) 0 7
          (some "SL-003")).2.store
        = [demoMaintLight].map (setLightFaulty 7 "SL-003")
      ∧ (simulate_light_failure (some ()) (AppState.mk [demoMaintLight] []) 0 7
          (some "SL-003")).2.cache = []
      ∧ { demoMaintLight with status := Status.faulty, last_maintenance := 7 }
          ∈ (simulate_light_failure (some ()) (AppState.mk [demoMaintLight] [])
              0 7 (some "SL-003")).2.store) :=
  ⟨⟨by decide, by decide⟩,
   C10_explicit_id_skips_check [demoMaintLight] [] 0 7 "SL-003" demoMaintLight
     (by decide) (by decide)⟩

theorem trigger_core (store : List Light) (chosen : List String)
    (hn : (store.map Light.light_id).Nodup) (hchnodup : chosen.Nodup)
    (hchsub : ∀ x ∈ chosen, x ∈ operationalIds store) :
    (store.filter (fun l => chosen.contains l.light_id)).length = chosen.length
    ∧ ((store.zip (store.map (setMaintenanceRequired chosen))).filter
        (fun p => decide (¬ p.1 = p.2))).length = chosen.length
    ∧ ∀ p ∈ (store.zip (store.map (setMaintenanceRequired chosen))).filter
        (fun p => decide (¬ p.1 = p.2)),
      p.1.status = Status.operational
      ∧ p.2.status = Status.maintenance_required := by
  have hcont_mem : ∀ x : String, chosen.contains x = true ↔ x ∈ chosen := by
    intro x
    exact ⟨List.mem_of_elem_eq_true, List.elem_eq_true_of_mem⟩
  have hrowop : ∀ a ∈ store, a.light_id ∈ chosen
      → a.status = Status.operational := by
    intro a ha hac
    rcases List.mem_map.mp (hchsub _ hac) with ⟨l1, hl1f, hl1id⟩
    have hl1 : l1 ∈ store := (List.mem_filter.mp hl1f).1
    have hl1op : l1.status = Status.operational := by
      have h := (List.mem_filter.mp hl1f).2
      simpa using h
    have heq : l1 = a := List.inj_on_of_nodup_map hn hl1 ha hl1id
    rw [← heq]
    exact hl1op
  have hupd_mem : ∀ a : Light, a.light_id ∈ chosen →
      setMaintenanceRequired chosen a
        = { a with status := Status.maintenance_required } := by
    intro a hmem
    have hct : chosen.contains a.light_id = true := (hcont_mem _).mpr hmem
    unfold setMaintenanceRequired
    rw [hct]
    rfl
  have hupd_not : ∀ a : Light, ¬ a.light_id ∈ chosen →
      setMaintenanceRequired chosen a = a := by
    intro a hmem
    have hcf : chosen.contains a.light_id = false := by
      cases hcc : chosen.contains a.light_id
      · rfl
      · exact absurd ((hcont_mem _).mp hcc) hmem
    unfold setMaintenanceRequired
    rw [hcf]
    rfl
  have hcond : ∀ a ∈ store,
      (decide (¬ a = setMaintenanceRequired chosen a))
        = chosen.contains a.light_id := by
    intro a ha
    by_cases hmem : a.light_id ∈ chosen
    · rw [(hcont_mem _).mpr hmem, hupd_mem a hmem, decide_eq_true_eq]
      intro heq
      have h2 : a.status = Status.maintenance_required := congrArg Light.status heq
      rw [hrowop a ha hmem] at h2
      exact absurd h2 (by decide)
    · have hcf : chosen.contains a.light_id = false := by
        cases hcc : chosen.contains a.light_id
        · rfl
        · exact absurd ((hcont_mem _).mp hcc) hmem
      rw [hcf, hupd_not a hmem]
      simp
  have hzip : ((store.zip (store.map (setMaintenanceRequired chosen))).filter
      (fun p => decide (¬ p.1 = p.2)))
      = (store.filter (fun a => chosen.contains a.light_id)).map
        (fun a => (a, setMaintenanceRequired chosen a)) := by
    rw [zip_self_map, List.filter_map]
    congr 1
    apply List.filter_congr
    intro a ha
    show (decide (¬ a = setMaintenanceRequired chosen a))
        = chosen.contains a.light_id
    exact hcond a ha
  have hidslen : ((store.map Light.light_id).filter
      (fun x => chosen.contains x)).length = chosen.length :=
    length_filter_mem_of_nodup _ chosen hn hchnodup (fun x hx =>
      ((List.filter_sublist store).map Light.light_id).subset (hchsub x hx))
  have hstorelen : (store.filter (fun a => chosen.contains a.light_id)).length
      = chosen.length := by
    have hfm : ((store.map Light.light_id).filter (fun x => chosen.contains x))
        = (store.filter (fun a => chosen.contains a.light_id)).map
            Light.light_id := by
      rw [List.filter_map]
      rfl
    rw [hfm, List.length_map] at hidslen
    exact hidslen
  refine ⟨hstorelen, ?_, ?_⟩
  · rw [hzip, List.length_map]
    exact hstorelen
  · rw [hzip]
    intro p hp
    rcases List.mem_map.mp hp with ⟨a, hafil, rfl⟩
    have hamem : a ∈ store := (List.mem_filter.mp hafil).1
    have hac : a.light_id ∈ chosen :=
      (hcont_mem _).mp (List.mem_filter.mp hafil).2
    refine ⟨hrowop a hamem hac, ?_⟩
    rw [hupd_mem a hac]

/-- C4: trigger_scheduled_maintenance with batch size count reports success
with a message naming the affected count, clears the whole cache, changes
exactly min count (number of operational lights) rows, never more, and
changes only rows that were operational, setting them to
maintenance_required. -/
theorem C4_trigger_maintenance_min (store : List Light) (cache : Cache)
    (count : Nat) (randOrder : List String → List String)
    (hn : (store.map Light.light_id).Nodup)
    (hperm : (randOrder (operationalIds store)).Perm (operationalIds store)) :
    (trigger_scheduled_maintenance (some ()) randOrder
        (AppState.mk store cache) count).1.1 = true
    ∧ (trigger_scheduled_maintenance (some ()) randOrder
        (AppState.mk store cache) count).1.2
      = toString (min count (operationalIds store).length)
        ++ " lights set to maintenance_required"
    ∧ (trigger_scheduled_maintenance (some ()) randOrder
        (AppState.mk store cache) count).2.cache = []
    ∧ ((store.zip (trigger_scheduled_maintenance (some ()) randOrder
          (AppState.mk store cache) count).2.store).filter
        (fun p => decide (¬ p.1 = p.2))).length
      = min count (operationalIds store).length
    ∧ ∀ p ∈ (store.zip (trigger_scheduled_maintenance (some ()) randOrder
          (AppState.mk store cache) count).2.store).filter
        (fun p => decide (¬ p.1 = p.2)),
        p.1.status = Status.operational
        ∧ p.2.status = Status.maintenance_required := by
  have hchsub : ∀ x ∈ (randOrder (operationalIds store)).take count,
      x ∈ operationalIds store := fun x hx =>
    hperm.mem_iff.mp (List.take_subset _ _ hx)
  have hopnodup : (operationalIds store).Nodup :=
    ((List.filter_sublist store).map Light.light_id).nodup hn
  have hchnodup : ((randOrder (operationalIds store)).take count).Nodup :=
    (List.take_sublist _ _).nodup (hperm.nodup_iff.mpr hopnodup)
  have hchlen : ((randOrder (operationalIds store)).take count).length
      = min count (operationalIds store).length := by
    rw [List.length_take, hperm.length_eq]
  have core := trigger_core store ((randOrder (operationalIds store)).take count)
    hn hchnodup hchsub
  refine ⟨rfl, ?_, rfl, ?_, ?_⟩
  · show toString ((store.filter (fun l =>
        ((randOrder (operationalIds store)).take count).contains
          l.light_id)).length) ++ " lights set to maintenance_required"
      = toString (min count (operationalIds store).length)
        ++ " lights set to maintenance_required"
    rw [core.1, hchlen]
  · show ((store.zip (store.map (setMaintenanceRequired
        ((randOrder (operationalIds store)).take count)))).filter
        (fun p => decide (¬ p.1 = p.2))).length
      = min count (operationalIds store).length
    rw [core.2.1, hchlen]
  · show ∀ p ∈ (store.zip (store.map (setMaintenanceRequired
        ((randOrder (operationalIds store)).take count)))).filter
        (fun p => decide (¬ p.1 = p.2)),
        p.1.status = Status.operational
        ∧ p.2.status = Status.maintenance_required
    exact core.2.2

/-- Witness for C4: a batch of five on a store with two operational lights
affects exactly two rows. -/
theorem C4_trigger_maintenance_min_witness :
    (([demoOpLight, demoFaultyLight, demoOpLight2].map Light.light_id).Nodup
      ∧ ((fun l : List String => l) (operationalIds
          [demoOpLight, demoFaultyLight, demoOpLight2])).Perm
        (operationalIds [demoOpLight, demoFaultyLight, demoOpLight2]))
    ∧ ((trigger_scheduled_maintenance (some ()) (fun l => l)
          (AppState.mk [demoOpLight, demoFaultyLight, demoOpLight2] []) 5).1.1
        = true
      ∧ (trigger_scheduled_maintenance (some ()) (fun l => l)
          (AppState.mk [demoOpLight, demoFaultyLight, demoOpLight2] []) 5).1.2
        = toString (min 5 (operationalIds
            [demoOpLight, demoFaultyLight, demoOpLight2]).length)
          ++ " lights set to maintenance_required"
      ∧ (trigger_scheduled_maintenance (some ()) (fun l => l)
          (AppState.mk [demoOpLight, demoFaultyLight, demoOpLight2] []) 5).2.cache
        = []
      ∧ (([demoOpLight, demoFaultyLight, demoOpLight2].zip
            (trigger_scheduled_maintenance (some ()) (fun l => l)
              (AppState.mk [demoOpLight, demoFaultyLight, demoOpLight2] [])
              5).2.store).filter
          (fun p => decide (¬ p.1 = p.2))).length
        = min 5 (operationalIds
            [demoOpLight, demoFaultyLight, demoOpLight2]).length
      ∧ ∀ p ∈ ([demoOpLight, demoFaultyLight, demoOpLight2].zip
            (trigger_scheduled_maintenance (some ()) (fun l => l)
              (AppState.mk [demoOpLight, demoFaultyLight, demoOpLight2] [])
              5).2.store).filter
          (fun p => decide (¬ p.1 = p.2)),
          p.1.status = Status.operational
          ∧ p.2.status = Status.maintenance_required) :=
  ⟨⟨by decide, by decide⟩,
   C4_trigger_maintenance_min [demoOpLight, demoFaultyLight, demoOpLight2] []
     5 (fun l => l) (by decide) (by decide)⟩

/-- C6: when exactly one row of the neighborhoods table has a boundary that
fails to parse, add_neighborhoods_layer does not raise, adds exactly K
minus 1 polygon layers for the K input rows, and every row whose boundary
parses contributes its polygon. -/
theorem C6_one_malformed_boundary (parse : String → Option Json) (m : FMap)
    (neighborhoods_df : List NeighborhoodRow)
    (hbad : (neighborhoods_df.filter
        (fun r => (parse r.boundary_geojson).isNone)).length = 1) :
    (add_neighborhoods_layer parse m neighborhoods_df).layers.length
      = m.layers.length + (neighborhoods_df.length - 1)
    ∧ 1 ≤ neighborhoods_df.length
    ∧ ∀ r ∈ neighborhoods_df, (parse r.boundary_geojson).isSome →
        MapLayer.geoJsonPoly r.name
          ∈ (add_neighborhoods_layer parse m neighborhoods_df).layers := by
  have hne : neighborhoods_df.isEmpty = false := by
    cases hdf : neighborhoods_df with
    | nil => rw [hdf] at hbad; simp at hbad
    | cons a t => rfl
  have hstep : add_neighborhoods_layer parse m neighborhoods_df
      = FMap.mk (m.layers ++ neighborhoods_df.filterMap (fun row =>
          (parse row.boundary_geojson).map
            (fun _ => MapLayer.geoJsonPoly row.name))) := by
    unfold add_neighborhoods_layer
    rw [hne]
    rfl
  have hcong : neighborhoods_df.filter (fun a =>
      ((fun row : NeighborhoodRow => (parse row.boundary_geojson).map
        (fun _ => MapLayer.geoJsonPoly row.name)) a).isNone)
      = neighborhoods_df.filter (fun r => (parse r.boundary_geojson).isNone) := by
    apply List.filter_congr
    intro a _
    show ((parse a.boundary_geojson).map
        (fun _ => MapLayer.geoJsonPoly a.name)).isNone
      = (parse a.boundary_geojson).isNone
    cases parse a.boundary_geojson <;> rfl
  have hsum := length_filterMap_add (fun row : NeighborhoodRow =>
      (parse row.boundary_geojson).map (fun _ => MapLayer.geoJsonPoly row.name))
    neighborhoods_df
  rw [hcong, hbad] at hsum
  have hlen1 : 1 ≤ neighborhoods_df.length := by omega
  refine ⟨?_, hlen1, ?_⟩
  · rw [hstep]
    show (m.layers ++ neighborhoods_df.filterMap (fun row =>
        (parse row.boundary_geojson).map
          (fun _ => MapLayer.geoJsonPoly row.name))).length
      = m.layers.length + (neighborhoods_df.length - 1)
    rw [List.length_append]
    omega
  · intro r hr hsome
    rw [hstep]
    show MapLayer.geoJsonPoly r.name
      ∈ m.layers ++ neighborhoods_df.filterMap (fun row =>
          (parse row.boundary_geojson).map
            (fun _ => MapLayer.geoJsonPoly row.name))
    rcases Option.isSome_iff_exists.mp hsome with ⟨j, hj⟩
    have hfr : (fun row : NeighborhoodRow => (parse row.boundary_geojson).map
        (fun _ => MapLayer.geoJsonPoly row.name)) r
        = some (MapLayer.geoJsonPoly r.name) := by
      show (parse r.boundary_geojson).map (fun _ => MapLayer.geoJsonPoly r.name)
        = some (MapLayer.geoJsonPoly r.name)
      rw [hj]
      rfl
    exact List.mem_append.mpr (Or.inr (List.mem_filterMap.mpr ⟨r, hr, hfr⟩))

/-- Witness for C6: three neighborhoods, one with an unparseable boundary,
yield exactly two polygon layers. -/
theorem C6_one_malformed_boundary_witness :
    (([NeighborhoodRow.mk 1 "Indiranagar" 1000 "geo1",
       NeighborhoodRow.mk 2 "Koramangala" 2000 "bad",
       NeighborhoodRow.mk 3 "HSR" 1500 "geo3"].filter
        (fun r => (((fun s : String =>
          if s == "bad" then none else some (Json.str s))
            r.boundary_geojson)).isNone)).length = 1)
    ∧ ((add_neighborhoods_layer (fun s : String =>
          if s == "bad" then none else some (Json.str s)) (FMap.mk [])
          [NeighborhoodRow.mk 1 "Indiranagar" 1000 "geo1",
           NeighborhoodRow.mk 2 "Koramangala" 2000 "bad",
           NeighborhoodRow.mk 3 "HSR" 1500 "geo3"]).layers.length
        = (FMap.mk []).layers.length
          + ([NeighborhoodRow.mk 1 "Indiranagar" 1000 "geo1",
              NeighborhoodRow.mk 2 "Koramangala" 2000 "bad",
              NeighborhoodRow.mk 3 "HSR" 1500 "geo3"].length - 1)
      ∧ 1 ≤ [NeighborhoodRow.mk 1 "Indiranagar" 1000 "geo1",
             NeighborhoodRow.mk 2 "Koramangala" 2000 "bad",
             NeighborhoodRow.mk 3 "HSR" 1500 "geo3"].length
      ∧ ∀ r ∈ [NeighborhoodRow.mk 1 "Indiranagar" 1000 "geo1",
               NeighborhoodRow.mk 2 "Koramangala" 2000 "bad",
               NeighborhoodRow.mk 3 "HSR" 1500 "geo3"],
          (((fun s : String => if s == "bad" then none else some (Json.str s))
            r.boundary_geojson)).isSome →
          MapLayer.geoJsonPoly r.name
            ∈ (add_neighborhoods_layer (fun s : String =>
                if s == "bad" then none else some (Json.str s)) (FMap.mk [])
                [NeighborhoodRow.mk 1 "Indiranagar" 1000 "geo1",
                 NeighborhoodRow.mk 2 "Koramangala" 2000 "bad",
                 NeighborhoodRow.mk 3 "HSR" 1500 "geo3"]).layers) :=
  ⟨by decide,
   C6_one_malformed_boundary (fun s : String =>
      if s == "bad" then none else some (Json.str s)) (FMap.mk [])
     [NeighborhoodRow.mk 1 "Indiranagar" 1000 "geo1",
      NeighborhoodRow.mk 2 "Koramangala" 2000 "bad",
      NeighborhoodRow.mk 3 "HSR" 1500 "geo3"] (by decide)⟩
